import Mathlib

/-!
Verification development for the massa bootstrap subsystem core:
the chained-hash frame codec (client binder), the server-side streaming
state machine, and the session scheduler (admission, rate limiting,
concurrency cap).

Byte strings are modelled as `List Nat`; machine integers as `Nat` with
explicit bounds where the code checks them.  The 32-byte cryptographic
digest is modelled by a concrete executable stand-in (`hashCompute`):
every theorem below compares digests only for equality or inequality of
the chained values, so the particular function is irrelevant to the
positive statements, and concrete inequalities witness the negative ones.
-/

/-- Size in bytes of an on-wire signature (`massa_signature::SIGNATURE_SIZE_BYTES`). -/
def SIGNATURE_SIZE_BYTES : Nat := 64

/-- Size in bytes of a hash digest (`massa_hash::HASH_SIZE_BYTES`). -/
def HASH_SIZE_BYTES : Nat := 32

/-- Executable stand-in for the 32-byte digest computation: a spread-out
rolling checksum producing 32 bytes, each depending on the whole input.
Stands for `massa_hash::Hash::compute_from`. -/
def hashCompute (data : List Nat) : List Nat :=
  (List.range HASH_SIZE_BYTES).map
    (fun i => ((data.foldl (fun a b => (a * 131 + b + 1) % 65521) (i + 1)) + i) % 256)

/-- Model of `massa_hash::Hash`: a 32-byte digest, carried as its byte list. -/
structure Hash where
  bytes : List Nat
deriving DecidableEq, Repr

/-- Model of `Hash::compute_from`. -/
def Hash.computeFrom (data : List Nat) : Hash := ⟨hashCompute data⟩

/-- Model of `Hash::to_bytes`. -/
def Hash.toBytes (h : Hash) : List Nat := h.bytes

/-- Error kinds of `BootstrapError` that the modelled code paths can produce. -/
inductive BErr where
  | ioError
  | badSignature
  | deserializeError
  | serializeError
  | timedOut
  | generalError (t : String)
  | receivedError (t : String)
  | unexpectedClientMessage
  | finalStateError
deriving DecidableEq, Repr

/-- Decidable equality for `Except`, so that runs of the modelled fallible
operations can be compared by evaluation. -/
instance {ε α : Type} [DecidableEq ε] [DecidableEq α] : DecidableEq (Except ε α) := fun x y =>
  match x, y with
  | .ok a, .ok b =>
    if h : a = b then isTrue (congrArg Except.ok h)
    else isFalse (fun hc => h (Except.ok.inj hc))
  | .error a, .error b =>
    if h : a = b then isTrue (congrArg Except.error h)
    else isFalse (fun hc => h (Except.error.inj hc))
  | .ok _, .error _ => isFalse (fun hc => Except.noConfusion hc)
  | .error _, .ok _ => isFalse (fun hc => Except.noConfusion hc)

/-- Error text of `client_binder.rs` line 157. -/
def msgTooLargeText : String :=
  "bootstrap message too large to encode"

/-- Error text of `server.rs` line 616. -/
def futureSlotText : String :=
  "Bootstrap cursor set to future slot"

/-- Modelled from the spec: `u32::be_bytes_min_length(max)` from
`massa-models/src/serialization.rs` (file not under `src/`): the number of
bytes needed to represent `MaxMessageSize`, per the wire-format rule
`size_field_len = ceil(log2(MaxMessageSize+1) / 8)`.  The value is a `u32`,
so at most 4 bytes are ever needed. -/
def beBytesMinLength (max : Nat) : Nat :=
  if max = 0 then 0
  else if max < 256 then 1
  else if max < 65536 then 2
  else if max < 16777216 then 3
  else 4

/-- Big-endian bytes of `v`, exactly `width` bytes wide (most significant first). -/
def natToBeBytes : Nat → Nat → List Nat
  | 0, _ => []
  | w + 1, v => natToBeBytes w (v / 256) ++ [v % 256]

/-- Big-endian value of a byte list. -/
def parseBEBytes (l : List Nat) : Nat := l.foldl (fun a b => a * 256 + b) 0

/-- Modelled from the spec: `u32::to_be_bytes_min(value, max)` from
`massa-models/src/serialization.rs` (file not under `src/`): fails when the
value exceeds the configured maximum, otherwise yields the big-endian
encoding in exactly `beBytesMinLength max` bytes. -/
def toBeBytesMin (value max : Nat) : Except BErr (List Nat) :=
  if value > max then .error .serializeError
  else .ok (natToBeBytes (beBytesMinLength max) value)

/-- Modelled from the spec: `u32::from_be_bytes_min(buffer, max)` from
`massa-models/src/serialization.rs` (file not under `src/`): reads
`beBytesMinLength max` bytes big-endian and fails when the parsed value
exceeds the configured maximum.  Returns the value and the byte count read. -/
def fromBeBytesMin (buffer : List Nat) (max : Nat) : Except BErr (Nat × Nat) :=
  let n := beBytesMinLength max
  if buffer.length < n then .error .deserializeError
  else
    let v := parseBEBytes (buffer.take n)
    if v > max then .error .deserializeError
    else .ok (v, n)

/-- Model of `massa_models::slot::Slot`: a `(period, thread)` pair. -/
structure Slot where
  period : Nat
  thread : Nat
deriving DecidableEq, Repr

/-- Lexicographic strict order on slots (period first), as in the derived
`Ord` instance of the source `Slot`. -/
def slotLt (a b : Slot) : Bool :=
  Nat.blt a.period b.period || (a.period == b.period && Nat.blt a.thread b.thread)

/-- Modelled from the spec: `massa_models::streaming_step::StreamingStep`
(file not under `src/`): a cursor `Started | Ongoing(K) | Finished(K?)`. -/
inductive StreamingStep (K : Type) where
  | started
  | ongoing (k : K)
  | finished (k : Option K)
deriving DecidableEq, Repr

/-- Modelled from the spec: `StreamingStep::finished()` is true exactly on
the `Finished` variant. -/
def StreamingStep.isFinished {K : Type} : StreamingStep K → Bool
  | .finished _ => true
  | _ => false

/-- Placeholder for a set of block ids (`PreHashSet<BlockId>`). -/
abbrev BlockIdSet := List Nat

/-- Model of `BootstrapServerMessage` (`massa-bootstrap/src/messages.rs`):
the server-to-client message union.  Opaque payload fields are `Nat` or
`List Nat` placeholders; only structure and emptiness matter to the claims. -/
inductive BootstrapServerMessage where
  | bootstrapTime (serverTime : Nat) (version : Nat)
  | bootstrapPeers (peers : List Nat)
  | bootstrapPart (slot : Slot) (ledgerPart asyncPoolPart posCyclePart posCreditsPart execOpsPart : Nat)
      (finalStateChanges : List Nat) (consensusPart : List Nat) (consensusOutdatedIds : List Nat)
  | slotTooOld
  | bootstrapFinished
  | bootstrapError (t : String)
deriving DecidableEq, Repr

/-- Configuration and crypto context of the client binder
(`BootstrapClientBinder` fields `cfg`, `remote_pubkey` and the message
deserializer).  Signature verification and payload deserialization are
external primitives, carried as function fields. -/
structure ClientCfg where
  maxBootstrapMessageSize : Nat
  verify : Hash → List Nat → Bool
  deser : List Nat → Option BootstrapServerMessage

/-- The binder's `size_field_len` field, derived in `BootstrapClientBinder::new`. -/
def clientSizeFieldLen (cfg : ClientCfg) : Nat :=
  beBytesMinLength cfg.maxBootstrapMessageSize

/-- Model of `BootstrapClientBinder::handshake` (`client_binder.rs`):
writes `version_bytes || nonce` and seeds `prev_message` with
`hash(version_bytes || nonce)`.  Returns (emitted bytes, new `prev_message`). -/
def client_handshake (versionBytes nonce : List Nat) : List Nat × Option Hash :=
  (versionBytes ++ nonce, some (Hash.computeFrom (versionBytes ++ nonce)))

/-- Model of `BootstrapClientBinder::next_timeout` (`client_binder.rs`
lines 73-144).  `stream` is the incoming byte stream; the state is the
`prev_message` field.  Returns the deserialized message, the received
payload (body) bytes, and the new `prev_message`.  Mirrors the source:
the new `prev_message` is `hash(signature_bytes)` (the `replace` on line
103-104), while `hash(prev || body)` (or `hash(body)` when no previous
message existed) is computed only to verify the signature. -/
def next_timeout (cfg : ClientCfg) (prevMessage : Option Hash) (stream : List Nat) :
    Except BErr (BootstrapServerMessage × List Nat × Option Hash) :=
  let peekLen := SIGNATURE_SIZE_BYTES + clientSizeFieldLen cfg
  if stream.length < peekLen then .error .ioError
  else
    let peekBuff := stream.take peekLen
    let sigBytes := peekBuff.take SIGNATURE_SIZE_BYTES
    match fromBeBytesMin (peekBuff.drop SIGNATURE_SIZE_BYTES) cfg.maxBootstrapMessageSize with
    | .error e => .error e
    | .ok (msgLen, _) =>
      let legacyMsg := prevMessage
      let newPrev := some (Hash.computeFrom sigBytes)
      if stream.length < peekLen + msgLen then .error .ioError
      else
        let msgBytes := (stream.take (peekLen + msgLen)).drop peekLen
        let msgHash :=
          match legacyMsg with
          | some l => Hash.computeFrom (l.toBytes ++ msgBytes)
          | none => Hash.computeFrom msgBytes
        if cfg.verify msgHash sigBytes then
          match cfg.deser msgBytes with
          | some m => .ok (m, msgBytes, newPrev)
          | none => .error .deserializeError
        else .error .badSignature

/-- Model of `BootstrapClientBinder::send_timeout` (`client_binder.rs`
lines 148-190), taking the already-serialized payload bytes.  Returns the
emitted wire bytes and the new `prev_message`.  As in the source, when a
previous message hash exists it is written (32 bytes, in place of a
signature) while the stored hash is replaced by `hash(prev || payload)`
before the write; with no previous message, nothing is written in its
place and the stored hash becomes `hash(payload)`. -/
def send_timeout (cfg : ClientCfg) (prevMessage : Option Hash) (msgBytes : List Nat) :
    Except BErr (List Nat × Option Hash) :=
  if msgBytes.length ≥ 4294967296 then .error (.generalError msgTooLargeText)
  else
    match prevMessage with
    | some prev =>
      let newPrev := some (Hash.computeFrom (prev.toBytes ++ msgBytes))
      match toBeBytesMin msgBytes.length cfg.maxBootstrapMessageSize with
      | .error e => .error e
      | .ok lenBytes => .ok (prev.toBytes ++ lenBytes ++ msgBytes, newPrev)
    | none =>
      let newPrev := some (Hash.computeFrom msgBytes)
      match toBeBytesMin msgBytes.length cfg.maxBootstrapMessageSize with
      | .error e => .error e
      | .ok lenBytes => .ok (lenBytes ++ msgBytes, newPrev)

/-- Error kinds of `massa_final_state::FinalStateError` relevant to streaming. -/
inductive FinalStateErr where
  | invalidSlot
  | otherError
deriving DecidableEq, Repr

/-- One read-locked view of the final state, as consumed by one iteration of
`stream_bootstrap_information` (`server.rs` lines 587-646): the current slot
and the paginated-read interfaces of `final_state.read()`.  Part payloads are
opaque placeholders. -/
structure FinalStateView where
  slot : Slot
  getLedgerPart : StreamingStep Nat → Except BErr (Nat × StreamingStep Nat)
  getPoolPart : StreamingStep Nat → Nat × StreamingStep Nat
  getCycleHistoryPart : StreamingStep Nat → Except BErr (Nat × StreamingStep Nat)
  getDeferredCreditsPart : StreamingStep Slot → Nat × StreamingStep Slot
  getExecutedOpsPart : StreamingStep Slot → Nat × StreamingStep Slot
  getStateChangesPart : Slot → StreamingStep Nat → StreamingStep Nat → StreamingStep Nat →
      StreamingStep Slot → StreamingStep Slot → Except FinalStateErr (List Nat)

/-- The consensus controller interface consumed by streaming:
`consensus_controller.get_bootstrap_part(last_consensus_step, changes_step)`
returning `(graph_part, outdated_ids, new_consensus_step)`. -/
structure ConsensusController where
  getBootstrapPart : StreamingStep BlockIdSet → StreamingStep Slot →
      Except BErr (List Nat × List Nat × StreamingStep BlockIdSet)

/-- The cursor arguments of one streaming call: `last_slot` plus the six
substate cursors of `stream_bootstrap_information`'s signature
(`server.rs` lines 560-566). -/
structure StreamState where
  lastSlot : Option Slot
  ledgerStep : StreamingStep Nat
  poolStep : StreamingStep Nat
  cycleStep : StreamingStep Nat
  creditsStep : StreamingStep Slot
  opsStep : StreamingStep Slot
  consensusStep : StreamingStep BlockIdSet
deriving DecidableEq, Repr

/-- The state-changes computation of one iteration (`server.rs` lines
613-636): when the client reported a `last_slot` differing from the
current slot, a future slot is an error; `InvalidSlot` from the store
yields an empty log and sets the `slot_too_old` flag; any other store
error is fatal.  Returns `(changes_log, slot_too_old)`. -/
def changesLookup (v : FinalStateView) (lastSlot : Option Slot)
    (ls ps cs : StreamingStep Nat) (crs os : StreamingStep Slot) :
    Except BErr (List Nat × Bool) :=
  match lastSlot with
  | none => .ok ([], false)
  | some s =>
    if s == v.slot then .ok ([], false)
    else if slotLt v.slot s then
      .error (.generalError futureSlotText)
    else
      match v.getStateChangesPart s ls ps cs crs os with
      | .ok d => .ok (d, false)
      | .error .invalidSlot => .ok ([], true)
      | .error _ => .error .finalStateError

/-- The five final-state substate cursors all report `Finished`
(the condition of `server.rs` lines 655-660). -/
def allFinalStepsFinished (ls ps cs : StreamingStep Nat) (crs os : StreamingStep Slot) : Bool :=
  ls.isFinished && ps.isFinished && cs.isFinished && crs.isFinished && os.isFinished

/-- The `final_state_global_step` cursor of one iteration (`server.rs`
lines 655-664): `Finished(current_slot)` iff every substate cursor is
`Finished`, else `Ongoing(current_slot)`. -/
def finalStateGlobalStep (cur : Slot) (ls ps cs : StreamingStep Nat)
    (crs os : StreamingStep Slot) : StreamingStep Slot :=
  if allFinalStepsFinished ls ps cs crs os then .finished (some cur) else .ongoing cur

/-- The `final_state_changes_step` cursor of one iteration (`server.rs`
lines 667-671): `Finished(current_slot)` iff the changes log is empty. -/
def finalStateChangesStep (changes : List Nat) (cur : Slot) : StreamingStep Slot :=
  if changes.isEmpty then .finished (some cur) else .ongoing cur

/-- One iteration of the loop in `stream_bootstrap_information`
(`server.rs` lines 569-726): read the substate pages and the changes log
under the final-state view, then either terminate with `SlotTooOld`,
terminate with `BootstrapFinished` when the global step, the changes step
and the consensus cursor are all finished, or emit one `BootstrapPart` and
continue with updated cursors.  Returns the messages emitted this
iteration and either an error, `none` (streaming over), or the next state. -/
def stream_iteration (v : FinalStateView) (cc : ConsensusController) (st : StreamState) :
    List BootstrapServerMessage × Except BErr (Option StreamState) :=
  match v.getLedgerPart st.ledgerStep with
  | .error e => ([], .error e)
  | .ok (ledgerPart, newLedgerStep) =>
    let (asyncPoolPart, newPoolStep) := v.getPoolPart st.poolStep
    match v.getCycleHistoryPart st.cycleStep with
    | .error e => ([], .error e)
    | .ok (posCyclePart, newCycleStep) =>
      let (posCreditsPart, newCreditsStep) := v.getDeferredCreditsPart st.creditsStep
      let (execOpsPart, newOpsStep) := v.getExecutedOpsPart st.opsStep
      match changesLookup v st.lastSlot newLedgerStep newPoolStep newCycleStep newCreditsStep newOpsStep with
      | .error e => ([], .error e)
      | .ok (finalStateChanges, tooOld) =>
        let currentSlot := v.slot
        if tooOld then ([.slotTooOld], .ok none)
        else
          let globalStep := finalStateGlobalStep currentSlot newLedgerStep newPoolStep newCycleStep newCreditsStep newOpsStep
          let changesStep := finalStateChangesStep finalStateChanges currentSlot
          let emit := fun (consensusPart consensusOutdatedIds : List Nat)
              (consStep : StreamingStep BlockIdSet) =>
            if globalStep.isFinished && changesStep.isFinished && consStep.isFinished then
              ([BootstrapServerMessage.bootstrapFinished], Except.ok (none : Option StreamState))
            else
              ([BootstrapServerMessage.bootstrapPart currentSlot ledgerPart asyncPoolPart
                  posCyclePart posCreditsPart execOpsPart finalStateChanges
                  consensusPart consensusOutdatedIds],
               Except.ok (some { lastSlot := some currentSlot,
                                 ledgerStep := newLedgerStep,
                                 poolStep := newPoolStep,
                                 cycleStep := newCycleStep,
                                 creditsStep := newCreditsStep,
                                 opsStep := newOpsStep,
                                 consensusStep := consStep }))
          if globalStep.isFinished then
            match cc.getBootstrapPart st.consensusStep changesStep with
            | .error e => ([], .error e)
            | .ok (part, outdatedIds, newConsensusStep) => emit part outdatedIds newConsensusStep
          else emit [] [] st.consensusStep

/-- Model of `stream_bootstrap_information` (`server.rs` lines 556-728):
the streaming loop, iterated over a list of final-state views (one per
iteration; the list doubles as fuel).  Returns all emitted messages and
either an error, `none` (the call returned `Ok`), or the state still in
flight when the views ran out. -/
def stream_bootstrap_information : List FinalStateView → ConsensusController → StreamState →
    List BootstrapServerMessage × Except BErr (Option StreamState)
  | [], _, st => ([], .ok (some st))
  | v :: vs, cc, st =>
    let (msgs, r) := stream_iteration v cc st
    match r with
    | .error e => (msgs, .error e)
    | .ok none => (msgs, .ok none)
    | .ok (some st') =>
      let (msgs', r') := stream_bootstrap_information vs cc st'
      (msgs ++ msgs', r')

/-- Lookup in the IP-history map, modelled as an association list
(`HashMap<IpAddr, Instant>` with unique keys; IPs and instants are `Nat`). -/
def histFind : List (Nat × Nat) → Nat → Option Nat
  | [], _ => none
  | p :: t, k => if p.1 = k then some p.2 else histFind t k

/-- Model of `BootstrapServer::greedy_client_check` (`server.rs` lines
466-486).  `Instant` arithmetic is `Nat` with saturating subtraction:
`now.duration_since(occ)` is `now - occ`, and the `Err` payload
`occ.elapsed()` is likewise the time elapsed since `occ`.  Returns the
updated map and `Ok` on admission or `Err(elapsed)` on refusal; as in the
source's `entry().and_modify().or_insert()`, refusal leaves the entry
untouched, admission overwrites it (or inserts it) with `now`. -/
def greedy_client_check (hist : List (Nat × Nat)) (ip now interval : Nat) :
    List (Nat × Nat) × Except Nat Unit :=
  match histFind hist ip with
  | some occ =>
    if now - occ ≤ interval then (hist, .error (now - occ))
    else (hist.map (fun p => if p.1 = ip then (ip, now) else p), .ok ())
  | none => (hist ++ [(ip, now)], .ok ())

/-- Scheduler configuration: the fields of `BootstrapConfig` the run loop
consults (`max_simultaneous_bootstraps` already converted to the
`max_bootstraps` count, `per_ip_min_interval` and `ip_list_max_size`). -/
structure SchedCfg where
  maxBootstraps : Nat
  perIpMinInterval : Nat
  ipListMaxSize : Nat

/-- The opportunistic IP-history prune of the run loop (`server.rs` lines
343-352): when the map is over `ip_list_max_size`, retain only entries
within one `per_ip_min_interval` of `now`; if still oversized, clear it. -/
def prune_ip_history (cfg : SchedCfg) (hist : List (Nat × Nat)) (now : Nat) :
    List (Nat × Nat) :=
  if hist.length > cfg.ipListMaxSize then
    let retained := hist.filter (fun p => now - p.2 ≤ cfg.perIpMinInterval)
    if retained.length > cfg.ipListMaxSize then [] else retained
  else hist

/-- The per-accepted-connection data the run loop consumes: the peer IP,
the `Instant::now()` taken on admission, and the answer of
`white_black_list.is_ip_allowed` (`white_black_list` is a helper module;
a denial carries the error text). -/
structure ConnInfo where
  ip : Nat
  now : Nat
  denial : Option String
deriving DecidableEq, Repr

/-- Refusal text of `server.rs` line 406. -/
def noSlotsAvailableMsg : String :=
  "Bootstrap failed because the bootstrap server currently has no slots available."

/-- Refusal text of `server.rs` lines 362-366 (the humanized durations are
rendered with `toString`). -/
def greedyRefusalMsg (elapsed remaining : Nat) : String :=
  "Your last bootstrap on this server was " ++ toString elapsed ++
    " ago and you have to wait " ++ toString remaining ++ " before retrying."

/-- Outcome of handling one accepted connection: the new IP-history map,
whether a session thread was spawned, the `BootstrapError` texts sent via
`close_and_send_error`, and whether the scheduler closed the socket.
`close_and_send_error` itself lives in `server_binder.rs` (not under
`src/`); modelled from the spec: it best-effort sends exactly one
`BootstrapError` frame and closes the stream. -/
structure HandleOutcome where
  newHist : List (Nat × Nat)
  spawned : Bool
  sentErrors : List String
  closedSocket : Bool
deriving DecidableEq, Repr

/-- The per-connection body of `BootstrapServer::run_loop` (`server.rs`
lines 318-410): allow/deny check first; then, when under the concurrency
cap, the opportunistic prune and the per-IP rate check, spawning a session
on success; at or over the cap, refuse with the no-slots error.  `active`
is the session count (the counter's strong count minus the scheduler's own
reference). -/
def run_loop_handle_connection (cfg : SchedCfg) (active : Nat)
    (hist : List (Nat × Nat)) (conn : ConnInfo) : HandleOutcome :=
  match conn.denial with
  | some msg => ⟨hist, false, [msg], true⟩
  | none =>
    if active < cfg.maxBootstraps then
      let hist1 := prune_ip_history cfg hist conn.now
      let (hist2, rate) := greedy_client_check hist1 conn.ip conn.now cfg.perIpMinInterval
      match rate with
      | .error elapsed =>
        ⟨hist2, false, [greedyRefusalMsg elapsed (cfg.perIpMinInterval - elapsed)], true⟩
      | .ok _ => ⟨hist2, true, [], false⟩
    else ⟨hist, false, [noSlotsAvailableMsg], true⟩

/-- Events the run loop's state reacts to: a connection accepted by the
poller, or a session worker exiting (dropping its counter token; this may
interleave at any point, as the workers run on their own threads). -/
inductive SchedEvent where
  | accepted (conn : ConnInfo)
  | sessionExit

/-- One step of the run-loop state `(active session count, IP history)`
under an event: `accepted` runs `run_loop_handle_connection` (the count
grows by one exactly when a session is spawned); `sessionExit` drops one
counter token. -/
def run_loop_event_step (cfg : SchedCfg) (s : Nat × List (Nat × Nat)) (ev : SchedEvent) :
    Nat × List (Nat × Nat) :=
  match ev with
  | .accepted conn =>
    let r := run_loop_handle_connection cfg s.1 s.2 conn
    (if r.spawned then s.1 + 1 else s.1, r.newHist)
  | .sessionExit => (s.1 - 1, s.2)

/-- Model of `BootstrapClientMessage` (`massa-bootstrap/src/messages.rs`):
the client-to-server message union; `AskBootstrapPart` carries the cursor
bundle. -/
inductive BootstrapClientMessage where
  | askBootstrapPeers
  | askBootstrapPart (st : StreamState)
  | bootstrapSuccess
  | bootstrapError (t : String)
deriving DecidableEq, Repr

/-- Outcome of one blocking read of a client message on the server binder
(`server.blocking_next`): a timeout, a read error, or a message. -/
inductive ReadAttempt where
  | timedOut
  | readFail (e : BErr)
  | gotMsg (m : BootstrapClientMessage)

/-- Modelled from the spec (the handling is `todo!`/commented in
`manage_bootstrap`, `server.rs` lines 745-753): the early read for a
potential client error message tolerates a timeout, is fatal on a read
error, turns a client `BootstrapError` into a fatal error, and treats any
other early message as an unexpected-client-message fatal. -/
def earlyReadHandling : ReadAttempt → Except BErr Unit
  | .timedOut => .ok ()
  | .readFail e => .error e
  | .gotMsg (.bootstrapError t) => .error (.generalError t)
  | .gotMsg _ => .error .unexpectedClientMessage

/-- Modelled from the spec (the dispatch is commented in `manage_bootstrap`,
`server.rs` lines 777-833): the post-preamble request loop.  Each element
pairs one read outcome with the final-state views a streaming call would
consume.  A timeout terminates normally; `BootstrapSuccess` terminates
normally; a client `BootstrapError` terminates with `ReceivedError`;
`AskBootstrapPeers` replies with the peers; `AskBootstrapPart` runs
`stream_bootstrap_information`. -/
def request_loop (cc : ConsensusController) (peers : List Nat) :
    List (ReadAttempt × List FinalStateView) →
    List BootstrapServerMessage × Except BErr Unit
  | [] => ([], .ok ())
  | (r, views) :: rest =>
    match r with
    | .timedOut => ([], .ok ())
    | .readFail e => ([], .error e)
    | .gotMsg .askBootstrapPeers =>
      let (ms, res) := request_loop cc peers rest
      (.bootstrapPeers peers :: ms, res)
    | .gotMsg (.askBootstrapPart st) =>
      let (sm, sres) := stream_bootstrap_information views cc st
      match sres with
      | .error e => (sm, .error e)
      | .ok _ =>
        let (ms, res) := request_loop cc peers rest
        (sm ++ ms, res)
    | .gotMsg .bootstrapSuccess => ([], .ok ())
    | .gotMsg (.bootstrapError t) => ([], .error (.receivedError t))

/-- Model of `manage_bootstrap` (`server.rs` lines 731-835): wait for the
client handshake, perform the early read for a potential client error
(handling modelled from the spec, see `earlyReadHandling`), then send
`BootstrapTime{server_time, version}` as the first server message and
enter the request loop.  Returns the server messages sent, in order, and
the session result. -/
def manage_bootstrap (handshakeRes : Except BErr Unit) (early : ReadAttempt)
    (serverTime version : Nat) (cc : ConsensusController) (peers : List Nat)
    (reads : List (ReadAttempt × List FinalStateView)) :
    List BootstrapServerMessage × Except BErr Unit :=
  match handshakeRes with
  | .error e => ([], .error e)
  | .ok _ =>
    match earlyReadHandling early with
    | .error e => ([], .error e)
    | .ok _ =>
      let (ms, res) := request_loop cc peers reads
      (.bootstrapTime serverTime version :: ms, res)

/-- Boolean success test for the modelled fallible operations. -/
def isOkE {α : Type} : Except BErr α → Bool
  | .ok _ => true
  | .error _ => false

/-- Concrete client configuration used to evaluate the binder theorems:
message cap 3, a signature check that accepts, a deserializer that always
parses. -/
def cfgW : ClientCfg :=
  { maxBootstrapMessageSize := 3
    verify := fun _ _ => true
    deser := fun _ => some .slotTooOld }

/-- Concrete client configuration with a larger cap, used to evaluate
`next_timeout` on a full-size frame. -/
def cfgC1 : ClientCfg :=
  { maxBootstrapMessageSize := 1000
    verify := fun _ _ => true
    deser := fun _ => some .slotTooOld }

/-- Concrete previous chain hash. -/
def prevC1 : Hash := Hash.computeFrom [9]

/-- Concrete incoming frame for `cfgC1`: 64 signature bytes, a 2-byte
big-endian length prefix of value 3, and a 3-byte body. -/
def streamC1 : List Nat := List.replicate 64 7 ++ [0, 3] ++ [1, 2, 3]

/-- Concrete consensus controller whose bootstrap-part read fails. -/
def trivialConsensus : ConsensusController :=
  ⟨fun _ _ => .error .finalStateError⟩

/-- Concrete consensus controller that immediately reports a finished
consensus cursor. -/
def finishedConsensus : ConsensusController :=
  ⟨fun _ _ => .ok ([], [], .finished none)⟩

/-- Concrete cursor bundle: a client starting from scratch but reporting
`last_slot = (1,0)`. -/
def stW : StreamState :=
  { lastSlot := some ⟨1, 0⟩
    ledgerStep := .started
    poolStep := .started
    cycleStep := .started
    creditsStep := .started
    opsStep := .started
    consensusStep := .started }

/-- Concrete cursor bundle with no reported last slot. -/
def stF : StreamState :=
  { lastSlot := none
    ledgerStep := .started
    poolStep := .started
    cycleStep := .started
    creditsStep := .started
    opsStep := .started
    consensusStep := .started }

/-- Concrete final-state view at slot `(2,0)` whose state-changes read
answers `InvalidSlot`. -/
def viewT : FinalStateView :=
  { slot := ⟨2, 0⟩
    getLedgerPart := fun _ => .ok (0, .started)
    getPoolPart := fun _ => (0, .started)
    getCycleHistoryPart := fun _ => .ok (0, .started)
    getDeferredCreditsPart := fun _ => (0, .started)
    getExecutedOpsPart := fun _ => (0, .started)
    getStateChangesPart := fun _ _ _ _ _ _ => .error .invalidSlot }

/-- Concrete final-state view at slot `(5,0)` whose every substate read
reports `Finished` and whose changes log is empty. -/
def viewF : FinalStateView :=
  { slot := ⟨5, 0⟩
    getLedgerPart := fun _ => .ok (0, .finished none)
    getPoolPart := fun _ => (0, .finished none)
    getCycleHistoryPart := fun _ => .ok (0, .finished none)
    getDeferredCreditsPart := fun _ => (0, .finished none)
    getExecutedOpsPart := fun _ => (0, .finished none)
    getStateChangesPart := fun _ _ _ _ _ _ => .ok [] }

/-- C3: a connection that passes the allow/deny check while the active
session count already equals `max_simultaneous_bootstraps` is refused:
exactly one `BootstrapError` whose text states that no slots are available
is sent, the socket is closed, no session is spawned, and the IP history
is left untouched. -/
theorem run_loop_no_slots_refusal (cfg : SchedCfg) (active : Nat)
    (hist : List (Nat × Nat)) (conn : ConnInfo)
    (hallow : conn.denial = none) (hcap : active = cfg.maxBootstraps) :
    run_loop_handle_connection cfg active hist conn =
      ⟨hist, false, [noSlotsAvailableMsg], true⟩ := by
  subst hcap
  simp [run_loop_handle_connection, hallow]

/-- Witness: with cap 2, two active sessions and an allowed peer, the
handler refuses with the no-slots text and spawns nothing. -/
theorem run_loop_no_slots_refusal_witness :
    run_loop_handle_connection ⟨2, 10, 5⟩ 2 [] ⟨1, 100, none⟩ =
      ⟨[], false, [noSlotsAvailableMsg], true⟩ :=
  run_loop_no_slots_refusal ⟨2, 10, 5⟩ 2 [] ⟨1, 100, none⟩ rfl rfl

/-- C4: in every session whose handshake read succeeds and whose early
read for a potential client error is non-fatal, the first message the
server sends is `BootstrapTime` with the current server time and version. -/
theorem manage_bootstrap_first_message (early : ReadAttempt) (t v : Nat)
    (cc : ConsensusController) (peers : List Nat)
    (reads : List (ReadAttempt × List FinalStateView))
    (hearly : earlyReadHandling early = .ok ()) :
    (manage_bootstrap (.ok ()) early t v cc peers reads).1.head? =
      some (.bootstrapTime t v) := by
  unfold manage_bootstrap
  rw [hearly]
  rfl

/-- Witness: a timed-out early read is tolerated and the first sent
message is `BootstrapTime 42 7`. -/
theorem manage_bootstrap_first_message_witness :
    (manage_bootstrap (.ok ()) .timedOut 42 7 trivialConsensus [] []).1.head? =
      some (.bootstrapTime 42 7) :=
  manage_bootstrap_first_message .timedOut 42 7 trivialConsensus [] [] rfl

/-- C5: for a client-side send within the size bounds, with a previous
chain hash present the emitted bytes are the old 32-byte hash (in place of
a signature) followed by the minimal big-endian length prefix and the
payload, and the stored chain hash becomes `hash(prev || payload)`; with no
previous chain hash, nothing is written in its place and the stored chain
hash becomes `hash(payload)`.  Digests are 32 bytes long. -/
theorem send_timeout_chain_spec (cfg : ClientCfg) (prev : Hash) (payload : List Nat)
    (hlen : payload.length ≤ cfg.maxBootstrapMessageSize)
    (hsmall : payload.length < 4294967296) :
    send_timeout cfg (some prev) payload =
      .ok (prev.toBytes ++
            natToBeBytes (beBytesMinLength cfg.maxBootstrapMessageSize) payload.length ++
            payload,
          some (Hash.computeFrom (prev.toBytes ++ payload)))
    ∧ send_timeout cfg none payload =
      .ok (natToBeBytes (beBytesMinLength cfg.maxBootstrapMessageSize) payload.length ++
            payload,
          some (Hash.computeFrom payload))
    ∧ ∀ data : List Nat, (Hash.computeFrom data).toBytes.length = HASH_SIZE_BYTES := by
  have h1 : ¬ (payload.length ≥ 4294967296) := by omega
  have h2 : ¬ (payload.length > cfg.maxBootstrapMessageSize) := by omega
  refine ⟨?_, ?_, ?_⟩
  · simp [send_timeout, toBeBytesMin, h1, h2]
  · simp [send_timeout, toBeBytesMin, h1, h2]
  · intro data
    simp [Hash.computeFrom, Hash.toBytes, hashCompute]

/-- Witness: a 2-byte payload under the cap 3, sent with and without a
previous chain hash. -/
theorem send_timeout_chain_spec_witness :
    send_timeout cfgW (some (Hash.computeFrom [9])) [1, 2] =
      .ok ((Hash.computeFrom [9]).toBytes ++
            natToBeBytes (beBytesMinLength cfgW.maxBootstrapMessageSize) 2 ++ [1, 2],
          some (Hash.computeFrom ((Hash.computeFrom [9]).toBytes ++ [1, 2])))
    ∧ send_timeout cfgW none [1, 2] =
      .ok (natToBeBytes (beBytesMinLength cfgW.maxBootstrapMessageSize) 2 ++ [1, 2],
          some (Hash.computeFrom [1, 2]))
    ∧ ∀ data : List Nat, (Hash.computeFrom data).toBytes.length = HASH_SIZE_BYTES :=
  send_timeout_chain_spec cfgW (Hash.computeFrom [9]) [1, 2] (by decide) (by decide)

/-- Overwriting the entry of `ip` updates its binding. -/
theorem histFind_update_self (hist : List (Nat × Nat)) (ip now occ : Nat)
    (h : histFind hist ip = some occ) :
    histFind (hist.map (fun p => if p.1 = ip then (ip, now) else p)) ip = some now := by
  induction hist with
  | nil => simp [histFind] at h
  | cons p t ih =>
    by_cases hp : p.1 = ip
    · simp [histFind, hp]
    · simp [histFind, hp] at h ⊢
      exact ih h

/-- Overwriting the entry of `ip` leaves other keys untouched. -/
theorem histFind_update_other (hist : List (Nat × Nat)) (ip now k : Nat)
    (hk : k ≠ ip) :
    histFind (hist.map (fun p => if p.1 = ip then (ip, now) else p)) k = histFind hist k := by
  induction hist with
  | nil => rfl
  | cons p t ih =>
    by_cases hp : p.1 = ip
    · have hik : ¬ ip = k := fun h => hk h.symm
      simp [histFind, hp, hik, ih]
    · simp [histFind, hp, ih]

/-- Appending a fresh entry binds its key. -/
theorem histFind_append_self (hist : List (Nat × Nat)) (ip now : Nat)
    (h : histFind hist ip = none) :
    histFind (hist ++ [(ip, now)]) ip = some now := by
  induction hist with
  | nil => simp [histFind]
  | cons p t ih =>
    by_cases hp : p.1 = ip
    · simp [histFind, hp] at h
    · simp [histFind, hp] at h ⊢
      exact ih h

/-- Appending an entry for `ip` leaves other keys untouched. -/
theorem histFind_append_other (hist : List (Nat × Nat)) (ip now k : Nat)
    (hk : k ≠ ip) :
    histFind (hist ++ [(ip, now)]) k = histFind hist k := by
  induction hist with
  | nil => simp [histFind, Ne.symm hk]
  | cons p t ih =>
    by_cases hp : p.1 = k
    · simp [histFind, hp]
    · simp [histFind, hp, ih]

/-- C7: the per-IP rate check refuses, returning the elapsed duration,
exactly when the IP has a recorded last attempt within
`per_ip_min_interval` of `now`; otherwise it records `now` (inserting or
overwriting, other keys untouched) and admits; on refusal the map is left
unchanged. -/
theorem greedy_client_check_spec (hist : List (Nat × Nat)) (ip now interval : Nat) :
    (∀ last, histFind hist ip = some last → now - last ≤ interval →
      greedy_client_check hist ip now interval = (hist, .error (now - last)))
    ∧ (∀ last, histFind hist ip = some last → ¬ (now - last ≤ interval) →
      (greedy_client_check hist ip now interval).2 = .ok ()
        ∧ histFind (greedy_client_check hist ip now interval).1 ip = some now
        ∧ ∀ k, k ≠ ip →
            histFind (greedy_client_check hist ip now interval).1 k = histFind hist k)
    ∧ (histFind hist ip = none →
      (greedy_client_check hist ip now interval).2 = .ok ()
        ∧ histFind (greedy_client_check hist ip now interval).1 ip = some now
        ∧ ∀ k, k ≠ ip →
            histFind (greedy_client_check hist ip now interval).1 k = histFind hist k)
    ∧ (∀ e, (greedy_client_check hist ip now interval).2 = .error e →
      ∃ last, histFind hist ip = some last ∧ now - last ≤ interval ∧ e = now - last
        ∧ (greedy_client_check hist ip now interval).1 = hist) := by
  refine ⟨?_, ?_, ?_, ?_⟩
  · intro last hl hle
    simp [greedy_client_check, hl, hle]
  · intro last hl hle
    refine ⟨?_, ?_, ?_⟩
    · simp [greedy_client_check, hl, hle]
    · simp only [greedy_client_check, hl, if_neg hle]
      exact histFind_update_self hist ip now last hl
    · intro k hk
      simp only [greedy_client_check, hl, if_neg hle]
      exact histFind_update_other hist ip now k hk
  · intro hl
    refine ⟨?_, ?_, ?_⟩
    · simp [greedy_client_check, hl]
    · simp only [greedy_client_check, hl]
      exact histFind_append_self hist ip now hl
    · intro k hk
      simp only [greedy_client_check, hl]
      exact histFind_append_other hist ip now k hk
  · intro e he
    unfold greedy_client_check at he
    cases hl : histFind hist ip with
    | none => simp [hl] at he
    | some last =>
      simp only [hl] at he
      by_cases hle : now - last ≤ interval
      · simp only [if_pos hle] at he
        have he' : now - last = e := by simpa using he
        exact ⟨last, rfl, hle, he'.symm, by simp [greedy_client_check, hl, hle]⟩
      · rw [if_neg hle] at he
        simp at he

/-- Witness: IP 5 last seen at 10 is refused at 12 under interval 7 with
elapsed 2; a fresh IP is admitted and recorded. -/
theorem greedy_client_check_spec_witness :
    greedy_client_check [(5, 10)] 5 12 7 = ([(5, 10)], .error 2)
    ∧ histFind (greedy_client_check [] 5 12 7).1 5 = some 12 := by
  refine ⟨(greedy_client_check_spec [(5, 10)] 5 12 7).1 10 rfl (by decide), ?_⟩
  exact ((greedy_client_check_spec [] 5 12 7).2.2.1 rfl).2.1

/-- C8: when the IP-history map's size exceeds `ip_list_max_size` it is
pruned to the entries within one `per_ip_min_interval` of `now`
(characterized by membership); if the retained set is still oversized the
map is cleared entirely; a map within the bound is untouched. -/
theorem ip_hist_prune_spec (cfg : SchedCfg) (hist : List (Nat × Nat)) (now : Nat) :
    (¬ hist.length > cfg.ipListMaxSize → prune_ip_history cfg hist now = hist)
    ∧ (hist.length > cfg.ipListMaxSize →
        (hist.filter (fun p => now - p.2 ≤ cfg.perIpMinInterval)).length > cfg.ipListMaxSize →
        prune_ip_history cfg hist now = [])
    ∧ (hist.length > cfg.ipListMaxSize →
        ¬ ((hist.filter (fun p => now - p.2 ≤ cfg.perIpMinInterval)).length > cfg.ipListMaxSize) →
        ∀ p, p ∈ prune_ip_history cfg hist now ↔
          p ∈ hist ∧ now - p.2 ≤ cfg.perIpMinInterval) := by
  refine ⟨?_, ?_, ?_⟩
  · intro h
    simp [prune_ip_history, h]
  · intro h1 h2
    simp only [prune_ip_history]
    rw [if_pos h1, if_pos h2]
  · intro h1 h2 p
    simp only [prune_ip_history]
    rw [if_pos h1, if_neg h2]
    simp [List.mem_filter]

/-- Witness: a 2-entry map over cap 1 at `now = 20`, interval 6: only the
recent entry survives; and a map within the bound is untouched. -/
theorem ip_hist_prune_spec_witness :
    ((7, 3) ∈ prune_ip_history ⟨2, 6, 1⟩ [(7, 3), (8, 18)] 20 ↔
      (7, 3) ∈ [(7, 3), (8, 18)] ∧ 20 - 3 ≤ 6)
    ∧ prune_ip_history ⟨2, 6, 1⟩ [(9, 9)] 20 = [(9, 9)] := by
  refine ⟨(ip_hist_prune_spec ⟨2, 6, 1⟩ [(7, 3), (8, 18)] 20).2.2 (by decide) (by decide) (7, 3), ?_⟩
  exact (ip_hist_prune_spec ⟨2, 6, 1⟩ [(9, 9)] 20).1 (by decide)

set_option maxRecDepth 10000 in
/-- C1 counterexample: a concrete frame (64 signature bytes of value 7,
length prefix 3, body `[1,2,3]`) received with a previous chain hash
present is accepted, yet the stored chain hash is the digest of the
signature bytes, not `hash(prev_hash || body)` as the claim states. -/
theorem next_timeout_chain_claim_cx :
    next_timeout cfgC1 (some prevC1) streamC1 =
      .ok (.slotTooOld, [1, 2, 3], some (Hash.computeFrom (List.replicate 64 7)))
    ∧ some (Hash.computeFrom (List.replicate 64 7)) ≠
        some (Hash.computeFrom (prevC1.toBytes ++ [1, 2, 3])) := by
  constructor
  · decide
  · decide

/-- C1 (amended): for every frame successfully received by the client
binder, the stored chain hash after the call is `hash(sig_bytes)`, the
digest of the frame's 64 signature bytes, whether or not a previous chain
hash was present; `hash(prev_hash || body)` (resp. `hash(body)`) is used
only to verify the signature. -/
theorem next_timeout_stores_signature_hash (cfg : ClientCfg) (prev : Option Hash)
    (stream : List Nat) (m : BootstrapServerMessage) (body : List Nat) (pm : Option Hash)
    (h : next_timeout cfg prev stream = .ok (m, body, pm)) :
    pm = some (Hash.computeFrom (stream.take SIGNATURE_SIZE_BYTES)) := by
  simp only [next_timeout] at h
  repeat' split at h
  all_goals first
    | exact Except.noConfusion h
    | (injection h with h1
       injection h1 with hm h2
       injection h2 with hb hpm
       rw [← hpm, List.take_take, Nat.min_eq_left (Nat.le_add_right _ _)])

set_option maxRecDepth 10000 in
/-- Witness for the amended C1: applied to the concrete frame of the
counterexample, the stored chain hash is the digest of its 64 signature
bytes. -/
theorem next_timeout_stores_signature_hash_witness :
    some (Hash.computeFrom (List.replicate 64 7)) =
      some (Hash.computeFrom (streamC1.take SIGNATURE_SIZE_BYTES)) := by
  have h : next_timeout cfgC1 (some prevC1) streamC1 =
      .ok (.slotTooOld, [1, 2, 3], some (Hash.computeFrom (List.replicate 64 7))) := by decide
  exact next_timeout_stores_signature_hash cfgC1 (some prevC1) streamC1 _ _ _ h

/-- A successful minimal-big-endian length parse is within the configured cap. -/
theorem fromBeBytesMin_ok_le (buffer : List Nat) (max v n : Nat)
    (h : fromBeBytesMin buffer max = .ok (v, n)) : v ≤ max := by
  simp only [fromBeBytesMin] at h
  split at h
  · exact Except.noConfusion h
  · split at h
    · exact Except.noConfusion h
    · rename_i hv
      injection h with h1
      injection h1 with h2 h3
      omega

/-- C6: both sides reject over-limit frames.  Sending fails whenever the
serialized payload exceeds `MaxMessageSize`; receiving fails whenever the
big-endian value in the length-prefix position exceeds `MaxMessageSize`;
and every successfully decoded payload has length at most
`MaxMessageSize`. -/
theorem frame_size_limit_spec (cfg : ClientCfg) :
    (∀ st payload, cfg.maxBootstrapMessageSize < payload.length →
      isOkE (send_timeout cfg st payload) = false)
    ∧ (∀ prev stream,
        cfg.maxBootstrapMessageSize <
          parseBEBytes ((stream.drop SIGNATURE_SIZE_BYTES).take (clientSizeFieldLen cfg)) →
        isOkE (next_timeout cfg prev stream) = false)
    ∧ (∀ prev stream m body pm, next_timeout cfg prev stream = .ok (m, body, pm) →
        body.length ≤ cfg.maxBootstrapMessageSize) := by
  refine ⟨?_, ?_, ?_⟩
  · intro st payload hgt
    by_cases hbig : payload.length ≥ 4294967296
    · simp [send_timeout, isOkE, hbig]
    · cases st <;> simp [send_timeout, toBeBytesMin, isOkE, hbig, hgt]
  · intro prev stream hgt
    simp only [next_timeout]
    by_cases h0 : stream.length < SIGNATURE_SIZE_BYTES + clientSizeFieldLen cfg
    · rw [if_pos h0]; rfl
    · rw [if_neg h0]
      have hbt : (stream.take (SIGNATURE_SIZE_BYTES + clientSizeFieldLen cfg)).drop SIGNATURE_SIZE_BYTES =
          (stream.drop SIGNATURE_SIZE_BYTES).take (clientSizeFieldLen cfg) := by
        rw [List.drop_take]
        congr 1
        omega
      rw [hbt]
      simp only [fromBeBytesMin]
      by_cases hb2 : ((stream.drop SIGNATURE_SIZE_BYTES).take (clientSizeFieldLen cfg)).length <
          beBytesMinLength cfg.maxBootstrapMessageSize
      · rw [if_pos hb2]; rfl
      · rw [if_neg hb2]
        have hv : parseBEBytes (((stream.drop SIGNATURE_SIZE_BYTES).take (clientSizeFieldLen cfg)).take
            (beBytesMinLength cfg.maxBootstrapMessageSize)) > cfg.maxBootstrapMessageSize := by
          rw [List.take_take]
          have hmin : min (beBytesMinLength cfg.maxBootstrapMessageSize) (clientSizeFieldLen cfg) =
              clientSizeFieldLen cfg := by
            unfold clientSizeFieldLen
            exact Nat.min_self _
          rw [hmin]
          exact hgt
        rw [if_pos hv]
        rfl
  · intro prev stream m body pm h
    simp only [next_timeout] at h
    by_cases h0 : stream.length < SIGNATURE_SIZE_BYTES + clientSizeFieldLen cfg
    · rw [if_pos h0] at h; exact Except.noConfusion h
    · rw [if_neg h0] at h
      cases hf : fromBeBytesMin ((stream.take (SIGNATURE_SIZE_BYTES + clientSizeFieldLen cfg)).drop
          SIGNATURE_SIZE_BYTES) cfg.maxBootstrapMessageSize with
      | error e => simp only [hf] at h; exact Except.noConfusion h
      | ok p =>
        obtain ⟨msgLen, nn⟩ := p
        simp only [hf] at h
        by_cases h1 : stream.length < SIGNATURE_SIZE_BYTES + clientSizeFieldLen cfg + msgLen
        · rw [if_pos h1] at h; exact Except.noConfusion h
        · rw [if_neg h1] at h
          have hlen : msgLen ≤ cfg.maxBootstrapMessageSize :=
            fromBeBytesMin_ok_le _ _ _ _ hf
          repeat' split at h
          all_goals first
            | exact Except.noConfusion h
            | (injection h with hh1
               injection hh1 with hm hh2
               injection hh2 with hb hpm
               rw [← hb, List.length_drop, List.length_take,
                 Nat.min_eq_left (Nat.le_of_not_lt h1)]
               omega)

set_option maxRecDepth 10000 in
/-- Witness: under cap 3, a 4-byte payload is refused on send, a frame
whose length prefix reads 200 is refused on receive, and the accepted
3-byte frame of the counterexample is within the cap. -/
theorem frame_size_limit_spec_witness :
    isOkE (send_timeout cfgW none [1, 1, 1, 1]) = false
    ∧ isOkE (next_timeout cfgW none (List.replicate 64 7 ++ [200])) = false
    ∧ [1, 2, 3].length ≤ cfgW.maxBootstrapMessageSize := by
  refine ⟨(frame_size_limit_spec cfgW).1 none [1, 1, 1, 1] (by decide),
    (frame_size_limit_spec cfgW).2.1 none (List.replicate 64 7 ++ [200]) (by decide), ?_⟩
  have h : next_timeout cfgW none (List.replicate 64 5 ++ [3] ++ [1, 2, 3]) =
      .ok (.slotTooOld, [1, 2, 3], some (Hash.computeFrom (List.replicate 64 5))) := by decide
  exact (frame_size_limit_spec cfgW).2.2 none (List.replicate 64 5 ++ [3] ++ [1, 2, 3])
    .slotTooOld [1, 2, 3] (some (Hash.computeFrom (List.replicate 64 5))) h

/-- A session is spawned only when the handler saw the count strictly
under the cap (`server.rs` line 337). -/
theorem run_loop_handle_connection_spawned (cfg : SchedCfg) (active : Nat)
    (hist : List (Nat × Nat)) (conn : ConnInfo)
    (h : (run_loop_handle_connection cfg active hist conn).spawned = true) :
    active < cfg.maxBootstraps := by
  unfold run_loop_handle_connection at h
  split at h
  · exact absurd h (by simp)
  · split at h
    · assumption
    · exact absurd h (by simp)

/-- C9: along every event interleaving of the run loop (accepted
connections handled by the scheduler thread, session exits dropping their
counter token at arbitrary points), the live session count — the counter's
strong count minus the scheduler's own reference — never exceeds
`max_simultaneous_bootstraps`. -/
theorem run_loop_session_cap (cfg : SchedCfg) (evs : List SchedEvent) :
    (evs.foldl (run_loop_event_step cfg) (0, [])).1 ≤ cfg.maxBootstraps := by
  suffices h : ∀ s : Nat × List (Nat × Nat), s.1 ≤ cfg.maxBootstraps →
      (evs.foldl (run_loop_event_step cfg) s).1 ≤ cfg.maxBootstraps from
    h (0, []) (Nat.zero_le _)
  induction evs with
  | nil => intro s hs; exact hs
  | cons e t ih =>
    intro s hs
    rw [List.foldl_cons]
    apply ih
    cases e with
    | accepted conn =>
      unfold run_loop_event_step
      cases hsp : (run_loop_handle_connection cfg s.1 s.2 conn).spawned with
      | true =>
        have := run_loop_handle_connection_spawned cfg s.1 s.2 conn hsp
        simp only [hsp, if_true]
        omega
      | false =>
        simp only [hsp]
        simpa using hs
    | sessionExit =>
      unfold run_loop_event_step
      exact le_trans (Nat.sub_le _ _) hs

/-- C10: whenever, at any point of a streaming call, the state-changes
read of the current iteration answers `InvalidSlot` (the five substate
reads having succeeded, the client's reported slot being behind the
current one), the remainder of the call emits exactly one `SlotTooOld`
message and returns without error: no `BootstrapPart` and no
`BootstrapFinished` are emitted from that iteration on. -/
theorem stream_slot_too_old (v : FinalStateView) (vs : List FinalStateView)
    (cc : ConsensusController) (st : StreamState) (s : Slot)
    (lp : Nat) (ls' : StreamingStep Nat) (pp : Nat) (ps' : StreamingStep Nat)
    (cp : Nat) (cs' : StreamingStep Nat) (crp : Nat) (crs' : StreamingStep Slot)
    (op : Nat) (os' : StreamingStep Slot)
    (h1 : v.getLedgerPart st.ledgerStep = .ok (lp, ls'))
    (h2 : v.getPoolPart st.poolStep = (pp, ps'))
    (h3 : v.getCycleHistoryPart st.cycleStep = .ok (cp, cs'))
    (h4 : v.getDeferredCreditsPart st.creditsStep = (crp, crs'))
    (h5 : v.getExecutedOpsPart st.opsStep = (op, os'))
    (hs : st.lastSlot = some s)
    (hne : (s == v.slot) = false)
    (hnf : slotLt v.slot s = false)
    (hinv : v.getStateChangesPart s ls' ps' cs' crs' os' = .error .invalidSlot) :
    stream_bootstrap_information (v :: vs) cc st = ([.slotTooOld], .ok none) := by
  have hit : stream_iteration v cc st = ([.slotTooOld], .ok none) := by
    simp [stream_iteration, changesLookup, h1, h2, h3, h4, h5, hs, hne, hnf, hinv]
  simp [stream_bootstrap_information, hit]

/-- Witness: a client at slot `(1,0)` streaming from a view at slot
`(2,0)` whose changes read answers `InvalidSlot`. -/
theorem stream_slot_too_old_witness :
    stream_bootstrap_information [viewT] trivialConsensus stW = ([.slotTooOld], .ok none) :=
  stream_slot_too_old viewT [] trivialConsensus stW ⟨1, 0⟩ 0 .started 0 .started 0 .started
    0 .started 0 .started rfl rfl rfl rfl rfl rfl (by decide) (by decide) rfl

/-- The global step reports finished exactly when the five substate
cursors do. -/
theorem finalStateGlobalStep_isFinished (cur : Slot) (ls ps cs : StreamingStep Nat)
    (crs os : StreamingStep Slot) :
    (finalStateGlobalStep cur ls ps cs crs os).isFinished =
      allFinalStepsFinished ls ps cs crs os := by
  unfold finalStateGlobalStep
  cases h : allFinalStepsFinished ls ps cs crs os <;> simp [h, StreamingStep.isFinished]

/-- The changes step reports finished exactly when the changes log is empty. -/
theorem finalStateChangesStep_isFinished (chg : List Nat) (cur : Slot) :
    (finalStateChangesStep chg cur).isFinished = chg.isEmpty := by
  unfold finalStateChangesStep
  cases chg <;> simp [StreamingStep.isFinished]

/-- C2: an iteration of the streaming loop that completes its final-state
reads without error and without the slot-too-old condition sends
`BootstrapFinished` and exits the loop exactly when the global step, the
changes step and the (updated) consensus cursor are all finished; the
global step is finished exactly when every substate cursor is finished and
the changes step exactly when the changes log of the iteration is empty. -/
theorem stream_finished_exit_iff (v : FinalStateView) (cc : ConsensusController)
    (st : StreamState) (lp : Nat) (ls' : StreamingStep Nat) (pp : Nat)
    (ps' : StreamingStep Nat) (cp : Nat) (cs' : StreamingStep Nat) (crp : Nat)
    (crs' : StreamingStep Slot) (op : Nat) (os' : StreamingStep Slot)
    (chg : List Nat) (g o : List Nat) (ncs : StreamingStep BlockIdSet)
    (h1 : v.getLedgerPart st.ledgerStep = .ok (lp, ls'))
    (h2 : v.getPoolPart st.poolStep = (pp, ps'))
    (h3 : v.getCycleHistoryPart st.cycleStep = .ok (cp, cs'))
    (h4 : v.getDeferredCreditsPart st.creditsStep = (crp, crs'))
    (h5 : v.getExecutedOpsPart st.opsStep = (op, os'))
    (hch : changesLookup v st.lastSlot ls' ps' cs' crs' os' = .ok (chg, false))
    (hcons : cc.getBootstrapPart st.consensusStep (finalStateChangesStep chg v.slot) =
      .ok (g, o, ncs)) :
    (stream_iteration v cc st = ([.bootstrapFinished], .ok none) ↔
      (allFinalStepsFinished ls' ps' cs' crs' os' = true ∧ chg = [] ∧ ncs.isFinished = true))
    ∧ ((finalStateGlobalStep v.slot ls' ps' cs' crs' os').isFinished = true ↔
      allFinalStepsFinished ls' ps' cs' crs' os' = true)
    ∧ ((finalStateChangesStep chg v.slot).isFinished = true ↔ chg = []) := by
  refine ⟨?_, ?_, ?_⟩
  · cases hga : allFinalStepsFinished ls' ps' cs' crs' os' with
    | false =>
      simp [stream_iteration, h1, h2, h3, h4, h5, hch, finalStateGlobalStep_isFinished, hga]
    | true =>
      cases chg with
      | nil =>
        cases hn : ncs.isFinished with
        | true =>
          simp [stream_iteration, h1, h2, h3, h4, h5, hch, hcons,
            finalStateGlobalStep_isFinished, finalStateChangesStep_isFinished, hga, hn]
        | false =>
          simp [stream_iteration, h1, h2, h3, h4, h5, hch, hcons,
            finalStateGlobalStep_isFinished, finalStateChangesStep_isFinished, hga, hn]
      | cons c cs0 =>
        simp [stream_iteration, h1, h2, h3, h4, h5, hch, hcons,
          finalStateGlobalStep_isFinished, finalStateChangesStep_isFinished, hga]
  · rw [finalStateGlobalStep_isFinished]
  · rw [finalStateChangesStep_isFinished]
    cases chg <;> simp

/-- Witness: with every substate read finished, an empty changes log and a
consensus controller reporting a finished cursor, the iteration sends
`BootstrapFinished` and exits. -/
theorem stream_finished_exit_iff_witness :
    stream_iteration viewF finishedConsensus stF = ([.bootstrapFinished], .ok none) := by
  have h := stream_finished_exit_iff viewF finishedConsensus stF 0 (.finished none)
    0 (.finished none) 0 (.finished none) 0 (.finished none) 0 (.finished none)
    [] [] [] (.finished none) rfl rfl rfl rfl rfl rfl rfl
  exact h.1.mpr (by decide)
